import Mathlib

/-!
Verification development for the secnix secret-deployment tool.

Each Rust source file is shallowly embedded as pure Lean definitions:
machine integers become Nat with explicit wrap-around where overflow
matters, fallible code returns Except/Option, and file-system side
effects are reified into explicit result records (which directories were
removed, what metadata content was persisted, ...).  External library
primitives reached from the code (SHA-512, bech32, base64, UTF-8
validation) are implemented from their published definitions; genuinely
external effects (the AEAD cipher call, user-name lookup, chown results,
the serde parsers) are taken as explicit function parameters.
-/

set_option maxRecDepth 10000

namespace Secnix

/-! ## Model of src/fs.rs: fleet metadata and clean_old_generations

`FileSystemMetadata` (src/fs.rs lines 27-32) holds a
`BTreeMap<u64, String>` of generations plus the active generation id.
The BTreeMap is modelled as a list of (timestamp, id) pairs kept sorted
by strictly increasing timestamp; `pop_first` is the head of the list
and `insert` is order-preserving insertion that replaces an equal key.
-/

structure FileSystemMetadata where
  generations : List (Nat × String)
  active_generation : Option String
deriving Repr, DecidableEq

/-- Order-preserving insertion into the sorted (timestamp, id) list,
replacing the value at an equal key: `BTreeMap::insert`. -/
def btreeInsert (k : Nat) (v : String) : List (Nat × String) → List (Nat × String)
  | [] => [(k, v)]
  | (k2, v2) :: rest =>
    if k < k2 then (k, v) :: (k2, v2) :: rest
    else if k = k2 then (k, v) :: rest
    else (k2, v2) :: btreeInsert k v rest

/-- Wrapping subtraction on 64-bit usize values (release-build semantics of
Rust integer overflow; debug builds abort with an overflow panic instead).
Both arguments are assumed `< 2^64`. -/
def usizeSub (a b : Nat) : Nat := (a + 2 ^ 64 - b) % 2 ^ 64

/-- How one call of `clean_old_generations` leaves the loop of
src/fs.rs lines 301-321: either through the early `return Ok(())` taken
when `pop_first` finds the map empty (src/fs.rs lines 302-305), or by
the loop condition `removed_count < to_remove` turning false. -/
inductive CleanLoopExit where
  | early (removed_dirs : List String)
  | done (gens : List (Nat × String)) (removed_dirs : List String)
      (removed_active : Option (Nat × String))
deriving Repr, DecidableEq

/-- The while-loop of `clean_old_generations` (src/fs.rs lines 301-321):
pop the oldest entry; when it is the active generation set it aside
(overwriting any previous aside) without counting it; otherwise count it
and remove its directory (`remove_dir_all` failures only warn, so the
directory-removal attempt is recorded unconditionally). -/
def cleanLoop (active : Option String) (to_remove : Nat) :
    List (Nat × String) → Nat → List String → Option (Nat × String) → CleanLoopExit
  | gens, removed_count, removed_dirs, removed_active =>
    if removed_count < to_remove then
      match gens with
      | [] => .early removed_dirs
      | (ts, id) :: rest =>
        if active = some id then
          cleanLoop active to_remove rest removed_count removed_dirs (some (ts, id))
        else
          cleanLoop active to_remove rest (removed_count + 1) (removed_dirs ++ [id]) removed_active
    else
      .done gens removed_dirs removed_active

/-- Observable outcome of `clean_old_generations`: which generation
directories had `remove_dir_all` run on them, and the `metadata.json`
content written at the end — `none` when the early return skipped the
final re-insertion of the active entry and the persistence step. -/
structure CleanOutcome where
  removed_dirs : List String
  persisted : Option FileSystemMetadata
deriving Repr, DecidableEq

/-- `clean_old_generations` (src/fs.rs lines 292-332) on an already
loaded metadata value.  Line 298 computes `metadata.generations.len() -
to_keep` on usize with no saturation, embedded as the wrapping
`usizeSub`.  After the loop the set-aside active entry is re-inserted
and the metadata is persisted — but only on the normal exit; the early
return inside the loop persists nothing. -/
def clean_old_generations (metadata : FileSystemMetadata) (to_keep : Nat) : CleanOutcome :=
  let active := metadata.active_generation
  let to_remove := usizeSub metadata.generations.length to_keep
  match cleanLoop active to_remove metadata.generations 0 [] none with
  | .early dirs => { removed_dirs := dirs, persisted := none }
  | .done gens dirs removedActive =>
    let gens2 := match removedActive with
      | some (ts, id) => btreeInsert ts id gens
      | none => gens
    { removed_dirs := dirs,
      persisted := some { generations := gens2, active_generation := active } }

/-! ## Rust string splitting

`str::split(char)` as used at src/fs.rs line 84, src/cli.rs line 95 and
for `Path` components: structural recursion on the character list, so
that concrete inputs evaluate inside the kernel.  Like the Rust
iterator, it always yields at least one (possibly empty) piece. -/

def rust_split_char (c : Char) : List Char → List (List Char)
  | [] => [[]]
  | x :: xs =>
    if x = c then [] :: rust_split_char c xs
    else
      match rust_split_char c xs with
      | r :: rs => (x :: r) :: rs
      | [] => [[x]]

/-! ## Model of src/manifest.rs: manifest records -/

inductive FileType where
  | json | yaml | binary
deriving Repr, DecidableEq

/-- `SecretFile` (src/manifest.rs lines 23-45).  The `mode` field is used
by src/fs.rs line 121 as an integer defaulted to `400` whose decimal
digits are then re-parsed as octal, so it is modelled as `Option Nat`. -/
structure SecretFile where
  file_type : FileType
  name : String
  source : String
  key : Option String
  link : Option String
  mode : Option Nat
  owner : Option String
  group : Option String
deriving Repr, DecidableEq

/-- `SecretFile::get_key` (src/manifest.rs lines 98-106): the manifest
key when present, else the literal key `"data"` for binary files. -/
def SecretFile.get_key (f : SecretFile) : Option String :=
  match f.key with
  | some k => some k
  | none => if f.file_type = .binary then some "data" else none

/-- `Template` (src/manifest.rs lines 58-70). -/
structure Template where
  name : String
  source : String
  destination : String
  copy : Option Bool
  mode : Option String
  owner : Option String
  group : Option String
deriving Repr, DecidableEq

/-! ## Model of src/fs.rs: per-file permission and ownership application -/

/-- One octal digit of `u32::from_str_radix(_, 8)`. -/
def octDigit? (c : Char) : Option Nat :=
  if '0' ≤ c ∧ c ≤ '7' then some (c.toNat - '0'.toNat) else none

/-- `u32::from_str_radix(s, 8)`: an optional leading `+`, then at least
one octal digit, with the value required to fit in 32 bits. -/
def u32_from_str_radix8 (s : String) : Option Nat :=
  let cs := match s.toList with
    | '+' :: rest => rest
    | cs => cs
  if cs = [] then none
  else
    (cs.foldl (fun acc c => acc.bind fun a => (octDigit? c).map fun d => a * 8 + d)
        (some 0)).bind
      fun n => if n < 2 ^ 32 then some n else none

/-- The file-system and user-database effects reached by the
permission/ownership block of src/fs.rs lines 119-161, as explicit
parameters: the result of `set_permissions` for a given mode, the uid /
gid lookups of `get_user_by_name` / `get_group_by_name`, and the result
of each `chown` call. -/
structure PermEffects where
  set_permissions : Nat → Except String Unit
  get_user : String → Option Nat
  get_group : String → Option Nat
  chown_owner : Nat → Except String Unit
  chown_group : Nat → Except String Unit

/-- What the permission/ownership block did to the already-written
secret file. -/
structure PermsApplied where
  mode_set : Nat
  owner_set : Option Nat
  group_set : Option Nat
  warnings : List String
deriving Repr, DecidableEq

/-- The permission/ownership block of `activate_new_generation`
(src/fs.rs lines 119-161), run after the secret's plaintext has been
written with initial mode 0o600.  Lines 121-125: the default mode 400 is
stringified and parsed as octal, and both a parse failure and a
`set_permissions` failure propagate with `?` (aborting the install).
Lines 130-161: a missing owner/group name and a failing `chown` are
logged as warnings and execution continues. -/
def apply_secret_permissions (eff : PermEffects) (mode : Option Nat)
    (owner group : Option String) : Except String PermsApplied :=
  let modeStr := toString (mode.getD 400)
  match u32_from_str_radix8 modeStr with
  | none => .error "invalid digit found in string"
  | some as_octal =>
    match eff.set_permissions as_octal with
    | .error e => .error e
    | .ok () =>
      let ownerRes : Option Nat × List String :=
        match owner with
        | some name =>
          match eff.get_user name with
          | some uid =>
            match eff.chown_owner uid with
            | .ok () => (some uid, [])
            | .error e => (none, ["Failed to set owner: " ++ e])
          | none => (none, ["Owner " ++ name ++ " not found"])
        | none => (none, [])
      let groupRes : Option Nat × List String :=
        match group with
        | some name =>
          match eff.get_group name with
          | some gid =>
            match eff.chown_group gid with
            | .ok () => (some gid, [])
            | .error e => (none, ["Failed to set group: " ++ e])
          | none => (none, ["Group " ++ name ++ " not found"])
        | none => (none, [])
      .ok { mode_set := as_octal, owner_set := ownerRes.1, group_set := groupRes.1,
            warnings := ownerRes.2 ++ groupRes.2 }

/-- Effects under which every file-system call succeeds and the user
database is empty. -/
def benignPermEffects : PermEffects :=
  { set_permissions := fun _ => .ok ()
    get_user := fun _ => none
    get_group := fun _ => none
    chown_owner := fun _ => .ok ()
    chown_group := fun _ => .ok () }

/-- Effects under which permission setting succeeds but the user "alice"
resolves to uid 1000 and every `chown` call fails. -/
def chownFailPermEffects : PermEffects :=
  { set_permissions := fun _ => .ok ()
    get_user := fun n => if n = "alice" then some 1000 else none
    get_group := fun _ => none
    chown_owner := fun _ => .error "EPERM"
    chown_group := fun _ => .error "EPERM" }

/-! ## Model of src/fs.rs: template rendering and publishing paths -/

/-- File operations the template-render loop (src/fs.rs lines 173-194)
performs on the rendered file: it writes `rendered/<template.name>`
(path relative to the generation directory) with open mode 0o600 and
then calls `set_permissions` with the constant 0o400 (line 193).  The
loop contains no mode parsing and no `chown`-style call, reified as
`chown_attempted := false`. -/
structure TemplateFileOps where
  write_path : String
  initial_mode : Nat
  final_mode : Nat
  chown_attempted : Bool
deriving Repr, DecidableEq

def render_template_file_ops (t : Template) : TemplateFileOps :=
  { write_path := "rendered/" ++ t.name
    initial_mode := 0o600
    final_mode := 0o400
    chown_attempted := false }

/-- `Path::file_name`: the final normal component of the path, with a
trailing separator and `.` components ignored, and `none` when the path
ends in `..` or has no normal component. -/
def rust_path_file_name (p : String) : Option String :=
  let comps := ((rust_split_char '/' p.toList).map List.asString).filter
    fun c => c ≠ "" ∧ c ≠ "."
  match comps.getLast? with
  | some last => if last = ".." then none else some last
  | none => none

/-- The path the render loop writes the rendered template to, relative
to the generation directory (src/fs.rs lines 184-185). -/
def render_template_write_path (t : Template) : String :=
  "rendered/" ++ t.name

/-- The path the `copy = true` publish branch reads from, relative to
the generation directory (src/fs.rs lines 242-243):
`rendered/` joined with `Path::new(&template.source).file_name().unwrap()`;
the `unwrap` panics when `file_name` is `none`. -/
def copy_template_source_path (t : Template) : Except String String :=
  match rust_path_file_name t.source with
  | some fn => .ok ("rendered/" ++ fn)
  | none => .error "called unwrap on a None value"

/-! ## Model of src/sops.rs: document values and key lookup

`serde_yaml::Value` and `serde_json::Value` are mirrored by two value
trees in which only the constructors that `get_key`/`get_nested`
distinguish are kept apart: strings, mappings (with the non-string
mapping keys that a `&str` index can never match elided), and a
collapsed constructor for every other variant (sequences, numbers,
booleans, null, ...), all of which `get_nested` sends to `None`. -/

inductive YValue where
  | vstr (s : String)
  | vmap (entries : List (String × YValue))
  | vother
deriving Repr

inductive JValue where
  | vstr (s : String)
  | vmap (entries : List (String × JValue))
  | vother
deriving Repr

/-- First-match association lookup: `HashMap::get` / `Mapping::get` /
`Map::get` on the modelled string keys. -/
def assoc_get {α : Type} : List (String × α) → String → Option α
  | [], _ => none
  | (k2, v) :: rest, k => if k2 = k then some v else assoc_get rest k

mutual

/-- `Nested::get_nested` for `serde_yaml::Value` (src/sops.rs lines
187-212): a string is returned only at an exhausted path, a mapping
descends one component, everything else is `None`. -/
def YValue.get_nested : YValue → List String → Option String
  | .vstr s, key => if key = [] then some s else none
  | .vmap _, [] => none
  | .vmap m, k :: rest => YValue.get_nested_in m k rest
  | .vother, _ => none

/-- `m.get(k)` followed by the recursive `get_nested` call, fused into
one first-match traversal of the mapping entries. -/
def YValue.get_nested_in : List (String × YValue) → String → List String → Option String
  | [], _, _ => none
  | (k2, v) :: restm, k, restKey =>
    if k2 = k then v.get_nested restKey else YValue.get_nested_in restm k restKey

end

mutual

/-- `Nested::get_nested` for `serde_json::Value` (src/sops.rs lines
214-239). -/
def JValue.get_nested : JValue → List String → Option String
  | .vstr s, key => if key = [] then some s else none
  | .vmap _, [] => none
  | .vmap m, k :: rest => JValue.get_nested_in m k rest
  | .vother, _ => none

def JValue.get_nested_in : List (String × JValue) → String → List String → Option String
  | [], _, _ => none
  | (k2, v) :: restm, k, restKey =>
    if k2 = k then v.get_nested restKey else JValue.get_nested_in restm k restKey

end

/-- `YamlSopsFile::get_key` (src/sops.rs lines 75-88).  Line 76 indexes
`key[0]` with no bounds check: an empty key slice is an
index-out-of-bounds panic, modelled as `Except.error ()`.  A top-level
string is returned only when the path has length exactly 1; any other
top-level value descends through `get_nested` on the remaining
components. -/
def yaml_get_key (other : List (String × YValue)) (key : List String) :
    Except Unit (Option String) :=
  match key with
  | [] => .error ()
  | k0 :: rest =>
    .ok (match assoc_get other k0 with
      | some (.vstr s) => if rest = [] then some s else none
      | some v => v.get_nested rest
      | none => none)

/-- `JsonSopsFile::get_key` (src/sops.rs lines 95-109), same shape. -/
def json_get_key (other : List (String × JValue)) (key : List String) :
    Except Unit (Option String) :=
  match key with
  | [] => .error ()
  | k0 :: rest =>
    .ok (match assoc_get other k0 with
      | some (.vstr s) => if rest = [] then some s else none
      | some v => v.get_nested rest
      | none => none)

/-! ## Model of src/sops.rs: load_sops_file

`load_sops_file` (src/sops.rs lines 116-134) reads the file and feeds
the text to `serde_json::from_str` and, only if that fails, to
`serde_yaml::from_str`.  The two serde parsers are external library
calls and are taken as parameters; the embedding additionally records
the order in which the parse attempts happen, exactly mirroring the
straight-line source: JSON at line 120, YAML at line 127 only inside the
JSON-failure branch. -/

inductive SopsFlavor where
  | json | yaml
deriving Repr, DecidableEq

/-- Result of `load_sops_file` paired with the trace of attempted parse
flavours in order; `Except.error ()` is `Error::ParseError`. -/
def load_sops_file {J Y : Type} (parse_json : String → Option J)
    (parse_yaml : String → Option Y) (data : String) :
    Except Unit (J ⊕ Y) × List SopsFlavor :=
  match parse_json data with
  | some j => (.ok (.inl j), [.json])
  | none =>
    match parse_yaml data with
    | some y => (.ok (.inr y), [.json, .yaml])
    | none => (.error (), [.json, .yaml])

/-- Stands in for `serde_json::from_str::<JsonSopsFile>` restricted to a
single-document universe: it accepts exactly the text "doc-both",
standing for a SOPS document in JSON syntax. -/
def parse_json_both : String → Option Nat :=
  fun s => if s = "doc-both" then some 0 else none

/-- Stands in for `serde_yaml::from_str::<YamlSopsFile>` on the same
universe: YAML syntax is a superset of JSON syntax, so the YAML parser
also accepts "doc-both". -/
def parse_yaml_both : String → Option Nat :=
  fun s => if s = "doc-both" then some 0 else none

/-- A YAML-only universe: the JSON parser rejects "doc-yaml", the YAML
parser accepts it. -/
def parse_json_yamlonly : String → Option Nat :=
  fun _ => none

def parse_yaml_yamlonly : String → Option Nat :=
  fun s => if s = "doc-yaml" then some 1 else none

/-! ## Model of src/enc/age.rs: envelope parsing and AEAD decryption

Bytes are `Nat` values below 256.  The AES-256-GCM primitive itself is
an external cipher call and is a parameter `aead_open key iv aad
ciphertext_and_tag`, returning the plaintext when the tag verifies.  The
`f64` parser of the `float` arm is likewise a parameter (floating point
stays uninterpreted); both the plaintext-to-`String` conversion of
`String::from_utf8` and `str::parse::<i64>` / `parse::<bool>` are
implemented concretely, with Rust `String`s represented by their UTF-8
bytes. -/

/-- A UTF-8 continuation byte. -/
def utf8Cont (b : Nat) : Bool := decide (128 ≤ b ∧ b ≤ 191)

/-- The UTF-8 well-formedness check of `String::from_utf8` (the table of
RFC 3629: no overlongs, no surrogates, nothing above U+10FFFF). -/
def utf8Valid : List Nat → Bool
  | [] => true
  | b :: rest =>
    if b ≤ 127 then utf8Valid rest
    else if 194 ≤ b ∧ b ≤ 223 then
      match rest with
      | c1 :: rest2 => utf8Cont c1 && utf8Valid rest2
      | [] => false
    else if b = 224 then
      match rest with
      | c1 :: c2 :: rest2 => decide (160 ≤ c1 ∧ c1 ≤ 191) && utf8Cont c2 && utf8Valid rest2
      | _ => false
    else if (225 ≤ b ∧ b ≤ 236) ∨ b = 238 ∨ b = 239 then
      match rest with
      | c1 :: c2 :: rest2 => utf8Cont c1 && utf8Cont c2 && utf8Valid rest2
      | _ => false
    else if b = 237 then
      match rest with
      | c1 :: c2 :: rest2 => decide (128 ≤ c1 ∧ c1 ≤ 159) && utf8Cont c2 && utf8Valid rest2
      | _ => false
    else if b = 240 then
      match rest with
      | c1 :: c2 :: c3 :: rest2 =>
        decide (144 ≤ c1 ∧ c1 ≤ 191) && utf8Cont c2 && utf8Cont c3 && utf8Valid rest2
      | _ => false
    else if 241 ≤ b ∧ b ≤ 243 then
      match rest with
      | c1 :: c2 :: c3 :: rest2 => utf8Cont c1 && utf8Cont c2 && utf8Cont c3 && utf8Valid rest2
      | _ => false
    else if b = 244 then
      match rest with
      | c1 :: c2 :: c3 :: rest2 =>
        decide (128 ≤ c1 ∧ c1 ≤ 143) && utf8Cont c2 && utf8Cont c3 && utf8Valid rest2
      | _ => false
    else false

/-- The UTF-8 encoding of one Unicode scalar value. -/
def utf8EncodeCharNat (n : Nat) : List Nat :=
  if n ≤ 0x7f then [n]
  else if n ≤ 0x7ff then [192 + n / 64, 128 + n % 64]
  else if n ≤ 0xffff then [224 + n / 4096, 128 + n / 64 % 64, 128 + n % 64]
  else [240 + n / 262144, 128 + n / 4096 % 64, 128 + n / 64 % 64, 128 + n % 64]

/-- The UTF-8 bytes of a string: how a Rust `String`/`&str` crosses into
byte-level interfaces (`as_bytes`). -/
def strBytes (s : String) : List Nat :=
  s.toList.flatMap fun c => utf8EncodeCharNat c.toNat

/-- One base64 alphabet character of the STANDARD engine. -/
def b64Val (c : Char) : Option Nat :=
  if 'A' ≤ c ∧ c ≤ 'Z' then some (c.toNat - 'A'.toNat)
  else if 'a' ≤ c ∧ c ≤ 'z' then some (26 + c.toNat - 'a'.toNat)
  else if '0' ≤ c ∧ c ≤ '9' then some (52 + c.toNat - '0'.toNat)
  else if c = '+' then some 62
  else if c = '/' then some 63
  else none

/-- `general_purpose::STANDARD.decode`: canonical padded base64 — the
length is a multiple of four, `=` appears only as final padding, and
unused trailing bits must be zero. -/
def base64_decode_groups : List Char → Option (List Nat)
  | [] => some []
  | c1 :: c2 :: c3 :: c4 :: rest =>
    if c3 = '=' ∧ c4 = '=' ∧ rest = [] then
      (b64Val c1).bind fun v1 =>
      (b64Val c2).bind fun v2 =>
      if v2 % 16 = 0 then some [v1 * 4 + v2 / 16] else none
    else if c4 = '=' ∧ rest = [] then
      (b64Val c1).bind fun v1 =>
      (b64Val c2).bind fun v2 =>
      (b64Val c3).bind fun v3 =>
      if v3 % 4 = 0 then some [v1 * 4 + v2 / 16, v2 % 16 * 16 + v3 / 4] else none
    else
      (b64Val c1).bind fun v1 =>
      (b64Val c2).bind fun v2 =>
      (b64Val c3).bind fun v3 =>
      (b64Val c4).bind fun v4 =>
      (base64_decode_groups rest).map fun tail =>
        (v1 * 4 + v2 / 16) :: (v2 % 16 * 16 + v3 / 4) :: (v3 % 4 * 64 + v4) :: tail
  | _ => none

def base64_decode (s : String) : Option (List Nat) :=
  base64_decode_groups s.toList

/-- Strip a literal token from the front of a character list. -/
def dropLead : List Char → List Char → Option (List Char)
  | [], s => some s
  | _ :: _, [] => none
  | p :: ps, c :: cs => if c = p then dropLead ps cs else none

/-- Strip a literal token from the end of a character list. -/
def dropTail (suffix s : List Char) : Option (List Char) :=
  (dropLead suffix.reverse s.reverse).map List.reverse

/-- All splits (prefix, suffix) of a list, shortest prefix first. -/
def allSplits : List Char → List (List Char × List Char)
  | [] => [([], [])]
  | c :: cs => ([], c :: cs) :: (allSplits cs).map fun p => (c :: p.1, p.2)

/-- The splits of `s` as `before ++ sep ++ after`, longest `before`
first — the order in which a greedy `(.*)` followed by the literal
`sep` hands candidates to the rest of the pattern. -/
def sepSplitsDesc (sep s : List Char) : List (List Char × List Char) :=
  (allSplits s).reverse.filterMap fun p => (dropLead sep p.2).map fun rest => (p.1, rest)

def firstSome {α β : Type} : List α → (α → Option β) → Option β
  | [], _ => none
  | x :: xs, f =>
    match f x with
    | some y => some y
    | none => firstSome xs f

/-- The anchored envelope regex of src/enc/age.rs line 132,
`ENC\[AES256_GCM,data:(.*),iv:(.*),tag:(.*),type:(.*)\]`, under the
regex crate's leftmost-first (greedy, backtracking) capture semantics;
`.` does not match a newline, enforced on each captured group. -/
def parse_enc_envelope (value : String) : Option (String × String × String × String) :=
  (dropLead "ENC[AES256_GCM,data:".toList value.toList).bind fun mid =>
  (dropTail "]".toList mid).bind fun mid =>
  firstSome (sepSplitsDesc ",iv:".toList mid) fun p1 =>
  firstSome (sepSplitsDesc ",tag:".toList p1.2) fun p2 =>
  firstSome (sepSplitsDesc ",type:".toList p2.2) fun p3 =>
  if p1.1.contains '\n' ∨ p2.1.contains '\n' ∨ p3.1.contains '\n' ∨ p3.2.contains '\n' then
    none
  else
    some (p1.1.asString, p2.1.asString, p3.1.asString, p3.2.asString)

inductive Aes256GcmType where
  | str | int | float | bytes | bool | comment | unknown
deriving Repr, DecidableEq

/-- The type-tag table of src/enc/age.rs lines 163-171. -/
def parse_gcm_type (s : String) : Aes256GcmType :=
  if s = "str" then .str
  else if s = "int" then .int
  else if s = "float" then .float
  else if s = "bytes" then .bytes
  else if s = "bool" then .bool
  else if s = "comment" then .comment
  else .unknown

structure Aes256GcmData where
  data : List Nat
  iv : List Nat
  tag : List Nat
  data_type : Aes256GcmType
deriving Repr, DecidableEq

/-- `Aes256GcmData::try_from` (src/enc/age.rs lines 142-179): envelope
regex match, then base64 decoding of the data/iv/tag fields, then the
type-tag table. -/
def aes256_gcm_data_try_from (value : String) : Except String Aes256GcmData :=
  match parse_enc_envelope value with
  | none => .error "Invalid data format"
  | some (dataB64, ivB64, tagB64, tyStr) =>
    match base64_decode dataB64 with
    | none => .error "Error decoding data"
    | some data =>
      match base64_decode ivB64 with
      | none => .error "Error decoding iv"
      | some iv =>
        match base64_decode tagB64 with
        | none => .error "Error decoding tag"
        | some tag =>
          .ok { data := data, iv := iv, tag := tag, data_type := parse_gcm_type tyStr }

/-- `DecryptedValue` (src/enc/age.rs lines 27-34).  A Rust `String` is
represented by its UTF-8 bytes; the `f64` of the float arm is the
uninterpreted output of the parameterised float parser. -/
inductive DecryptedValue where
  | string (utf8 : List Nat)
  | int (i : Int)
  | float (bits : Nat)
  | bytes (bs : List Nat)
  | bool (b : Bool)
  | comment
deriving Repr, DecidableEq

/-- `str::parse::<i64>`: optional sign, at least one decimal digit,
nothing else, within the i64 range; input as UTF-8/ASCII bytes. -/
def parse_i64_bytes (bs : List Nat) : Option Int :=
  let (neg, digits) : Bool × List Nat :=
    match bs with
    | 43 :: rest => (false, rest)
    | 45 :: rest => (true, rest)
    | rest => (false, rest)
  if digits = [] then none
  else
    (digits.foldl (fun acc d =>
        acc.bind fun a => if 48 ≤ d ∧ d ≤ 57 then some (a * 10 + (d - 48)) else none)
      (some 0)).bind fun n =>
      if neg then
        if n ≤ 2 ^ 63 then some (-(n : Int)) else none
      else
        if n ≤ 2 ^ 63 - 1 then some (n : Int) else none

/-- `str::parse::<bool>`: exactly "true" or "false" (as UTF-8 bytes). -/
def parse_bool_bytes (bs : List Nat) : Option Bool :=
  if bs = strBytes "true" then some true
  else if bs = strBytes "false" then some false
  else none

/-- `rust_join sep parts`: `Vec::join`. -/
def rust_join (sep : String) : List String → String
  | [] => ""
  | [x] => x
  | x :: rest => x ++ sep ++ rust_join sep rest

/-- `enc::age::decrypt` (src/enc/age.rs lines 60-95).  Parse the
envelope; AAD is the path joined with `:` plus a trailing `:`; the AEAD
message is `data ++ tag`; on a verified tag the plaintext is first
forced through `String::from_utf8` (line 81) — before the type dispatch,
so every type including `bytes` requires valid UTF-8 — and then decoded
per the type tag. -/
def age_decrypt
    (aead_open : List Nat → List Nat → List Nat → List Nat → Option (List Nat))
    (parse_f64 : List Nat → Option Nat)
    (data : String) (key : List Nat) (path : List String) :
    Except String DecryptedValue :=
  match aes256_gcm_data_try_from data with
  | .error e => .error e
  | .ok raw =>
    let aad := strBytes (rust_join ":" path ++ ":")
    let ciphertext_tag := raw.data ++ raw.tag
    match aead_open key raw.iv aad ciphertext_tag with
    | none => .error "aead: tag mismatch"
    | some raw_decrypted =>
      if utf8Valid raw_decrypted then
        match raw.data_type with
        | .str => .ok (.string raw_decrypted)
        | .int =>
          match parse_i64_bytes raw_decrypted with
          | some i => .ok (.int i)
          | none => .error "invalid digit found in string"
        | .float =>
          match parse_f64 raw_decrypted with
          | some bits => .ok (.float bits)
          | none => .error "invalid float literal"
        | .bytes => .ok (.bytes raw_decrypted)
        | .bool =>
          match parse_bool_bytes raw_decrypted with
          | some b => .ok (.bool b)
          | none => .error "provided string was not true or false"
        | .comment => .ok .comment
        | .unknown => .error "Unknown data type"
      else .error "invalid utf-8 sequence"

/-! ## Model of src/sops.rs: the decryption orchestrator -/

structure AgeStanza where
  recipient : String
  enc : String
deriving Repr, DecidableEq

/-- `SopsData` (src/sops.rs lines 17-24). -/
structure SopsData where
  age : List AgeStanza
  lastmodified : String
  mac : String
  unencrypted_suffix : String
  version : String
deriving Repr, DecidableEq

inductive SopsDecryptError where
  | noKey
  | noRecipients
  | kekDecryption (e : String)
  | kekLength
  | ageError (e : String)
deriving Repr, DecidableEq

/-- `sops::decrypt` (src/sops.rs lines 136-165).  `get_public_keys` and
`decrypt_kek` touch the identity file and the age library and are
parameters.  A failing `get_public_keys` is `NoKey`; the candidate list
is the SOPS `age` stanzas filtered, in order, to those whose recipient
the identity file knows; an empty candidate list is `NoRecipients`;
otherwise only `candidiates[0]` is ever used — a failing KEK unwrap is
final, with no fallback to later candidates.  The unwrapped KEK must be
exactly 32 bytes (`try_into` at line 158). -/
def sops_decrypt
    (get_public_keys : Except String (List String))
    (decrypt_kek : String → Except String (List Nat))
    (aead_open : List Nat → List Nat → List Nat → List Nat → Option (List Nat))
    (parse_f64 : List Nat → Option Nat)
    (path : List String) (data : String) (sops : SopsData) :
    Except SopsDecryptError DecryptedValue :=
  match get_public_keys with
  | .error _ => .error .noKey
  | .ok identities =>
    match sops.age.filter fun a => identities.contains a.recipient with
    | [] => .error .noRecipients
    | candidate :: _ =>
      match decrypt_kek candidate.enc with
      | .error e => .error (.kekDecryption e)
      | .ok kek =>
        if kek.length = 32 then
          match age_decrypt aead_open parse_f64 data kek path with
          | .ok v => .ok v
          | .error e => .error (.ageError e)
        else .error .kekLength

/-! ## Model of src/ssh.rs: SSH Ed25519 to age key derivation

`ssh_private_key_to_age` hashes the 32-byte Ed25519 seed with SHA-512,
keeps the first 32 bytes unmodified as the X25519 scalar and
bech32-encodes them upper-case under HRP `AGE-SECRET-KEY-`;
`ssh_public_key_to_age` decompresses the Edwards point, rejects the
identity, converts to Montgomery u and bech32-encodes lower-case under
HRP `age`.  The library primitives (the sha2 crate's SHA-512, the
bech32 crate's encoders, curve25519-dalek's decompression and
Montgomery conversion) are implemented here from their published
definitions (FIPS 180-4, BIP-173, RFC 8032/7748 arithmetic). -/

/-- 64-bit wrap. -/
def add64 (a b : Nat) : Nat := (a + b) % 2 ^ 64

def rotr64 (n x : Nat) : Nat := Nat.lor (x >>> n) ((x <<< (64 - n)) % 2 ^ 64)

def not64 (x : Nat) : Nat := Nat.xor x (2 ^ 64 - 1)

/-- SHA-512 round constants (FIPS 180-4 §4.2.3). -/
def sha512K : Array Nat := #[
  4794697086780616226, 8158064640168781261, 13096744586834688815, 16840607885511220156,
  4131703408338449720, 6480981068601479193, 10538285296894168987, 12329834152419229976,
  15566598209576043074, 1334009975649890238, 2608012711638119052, 6128411473006802146,
  8268148722764581231, 9286055187155687089, 11230858885718282805, 13951009754708518548,
  16472876342353939154, 17275323862435702243, 1135362057144423861, 2597628984639134821,
  3308224258029322869, 5365058923640841347, 6679025012923562964, 8573033837759648693,
  10970295158949994411, 12119686244451234320, 12683024718118986047, 13788192230050041572,
  14330467153632333762, 15395433587784984357, 489312712824947311, 1452737877330783856,
  2861767655752347644, 3322285676063803686, 5560940570517711597, 5996557281743188959,
  7280758554555802590, 8532644243296465576, 9350256976987008742, 10552545826968843579,
  11727347734174303076, 12113106623233404929, 14000437183269869457, 14369950271660146224,
  15101387698204529176, 15463397548674623760, 17586052441742319658, 1182934255886127544,
  1847814050463011016, 2177327727835720531, 2830643537854262169, 3796741975233480872,
  4115178125766777443, 5681478168544905931, 6601373596472566643, 7507060721942968483,
  8399075790359081724, 8693463985226723168, 9568029438360202098, 10144078919501101548,
  10430055236837252648, 11840083180663258601, 13761210420658862357, 14299343276471374635,
  14566680578165727644, 15097957966210449927, 16922976911328602910, 17689382322260857208,
  500013540394364858, 748580250866718886, 1242879168328830382, 1977374033974150939,
  2944078676154940804, 3659926193048069267, 4368137639120453308, 4836135668995329356,
  5532061633213252278, 6448918945643986474, 6902733635092675308, 7801388544844847127]

/-- SHA-512 initial hash state (FIPS 180-4 §5.3.5). -/
def sha512H0 : Array Nat := #[
  7640891576956012808, 13503953896175478587, 4354685564936845355, 11912009170470909681,
  5840696475078001361, 11170449401992604703, 2270897969802886507, 6620516959819538809]

/-- Big-endian bytes of a value, fixed width. -/
def natToBEBytes (n width : Nat) : List Nat :=
  (List.range width).map fun i => n / 256 ^ (width - 1 - i) % 256

/-- Little-endian bytes of a value, fixed width. -/
def natToLEBytes (n width : Nat) : List Nat :=
  (List.range width).map fun i => n / 256 ^ i % 256

def leBytesToNat (bs : List Nat) : Nat :=
  bs.foldr (fun b acc => acc * 256 + b) 0

/-- FIPS 180-4 padding: 0x80, zeros to 112 mod 128, then the bit length
as 16 big-endian bytes. -/
def sha512Pad (msg : List Nat) : List Nat :=
  let l := msg.length
  let k := (112 + 128 - (l + 1) % 128) % 128
  msg ++ [128] ++ List.replicate k 0 ++ natToBEBytes (l * 8) 16

/-- Cut the padded message into 128-byte blocks.  Structural recursion
on a fuel argument (any fuel at least the number of blocks gives the
same result; callers pass the full length), so that concrete digests
reduce inside the kernel. -/
def chunks128Fuel : Nat → List Nat → List (List Nat)
  | 0, _ => []
  | _ + 1, [] => []
  | fuel + 1, l => l.take 128 :: chunks128Fuel fuel (l.drop 128)

def chunks128 (l : List Nat) : List (List Nat) := chunks128Fuel l.length l

/-- Eight big-endian bytes at a time into 64-bit words. -/
def bytesToWords : List Nat → List Nat
  | b0 :: b1 :: b2 :: b3 :: b4 :: b5 :: b6 :: b7 :: rest =>
    (((((((b0 * 256 + b1) * 256 + b2) * 256 + b3) * 256 + b4) * 256 + b5) * 256 + b6) * 256 + b7)
      :: bytesToWords rest
  | _ => []

def sigma0 (x : Nat) : Nat := Nat.xor (rotr64 1 x) (Nat.xor (rotr64 8 x) (x >>> 7))

def sigma1 (x : Nat) : Nat := Nat.xor (rotr64 19 x) (Nat.xor (rotr64 61 x) (x >>> 6))

def bigSigma0 (x : Nat) : Nat := Nat.xor (rotr64 28 x) (Nat.xor (rotr64 34 x) (rotr64 39 x))

def bigSigma1 (x : Nat) : Nat := Nat.xor (rotr64 14 x) (Nat.xor (rotr64 18 x) (rotr64 41 x))

/-- Extend the 16 message words to the 80-entry schedule. -/
def sha512Schedule (w16 : List Nat) : Array Nat :=
  (List.range 64).foldl
    (fun w _ =>
      let i := w.size
      w.push (add64 (add64 (sigma1 w[i - 2]!) w[i - 7]!) (add64 (sigma0 w[i - 15]!) w[i - 16]!)))
    w16.toArray

/-- One SHA-512 compression round. -/
def sha512Round (w : Array Nat) (st : Array Nat) (i : Nat) : Array Nat :=
  let a := st[0]!; let b := st[1]!; let c := st[2]!; let d := st[3]!
  let e := st[4]!; let f := st[5]!; let g := st[6]!; let h := st[7]!
  let ch := Nat.xor (Nat.land e f) (Nat.land (not64 e) g)
  let maj := Nat.xor (Nat.land a b) (Nat.xor (Nat.land a c) (Nat.land b c))
  let t1 := add64 (add64 (add64 h (bigSigma1 e)) (add64 ch sha512K[i]!)) w[i]!
  let t2 := add64 (bigSigma0 a) maj
  #[add64 t1 t2, a, b, c, add64 d t1, e, f, g]

def sha512Compress (h : Array Nat) (block : List Nat) : Array Nat :=
  let w := sha512Schedule (bytesToWords block)
  let st := (List.range 80).foldl (sha512Round w) h
  (Array.range 8).map fun i => add64 h[i]! st[i]!

/-- SHA-512 of a byte sequence (FIPS 180-4), as 64 digest bytes. -/
def sha512 (msg : List Nat) : List Nat :=
  let h := (chunks128 (sha512Pad msg)).foldl sha512Compress sha512H0
  h.toList.flatMap fun wd => natToBEBytes wd 8

/-! ### bech32 (BIP-173), as used by the bech32 crate's
`encode::<Bech32>` and `encode_upper::<Bech32>`: the checksum is
computed over the lower-cased HRP; `encode_upper` emits the HRP as
given (here already upper-case) and the data in the upper-case
alphabet. -/

def bech32Gen : Array Nat := #[0x3b6a57b2, 0x26508e6d, 0x1ea119fa, 0x3d4233dd, 0x2a1462b3]

def bech32Polymod (values : List Nat) : Nat :=
  values.foldl
    (fun chk v =>
      let top := chk >>> 25
      let chk2 := Nat.xor ((Nat.land chk 0x1ffffff) <<< 5) v
      (List.range 5).foldl
        (fun c i => if Nat.land (top >>> i) 1 = 1 then Nat.xor c bech32Gen[i]! else c) chk2)
    1

def toLowerByte (b : Nat) : Nat := if 65 ≤ b ∧ b ≤ 90 then b + 32 else b

def bech32HrpExpand (hrp : List Nat) : List Nat :=
  hrp.map (· >>> 5) ++ [0] ++ hrp.map fun b => Nat.land b 31

def bech32CreateChecksum (hrp : List Nat) (data : List Nat) : List Nat :=
  let values := bech32HrpExpand (hrp.map toLowerByte) ++ data
  let pm := Nat.xor (bech32Polymod (values ++ [0, 0, 0, 0, 0, 0])) 1
  (List.range 6).map fun i => Nat.land (pm >>> (5 * (5 - i))) 31

/-- Regroup 8-bit bytes into 5-bit values, zero-padding the tail
(BIP-173 `convertbits(_, 8, 5, true)`); the accumulator always holds
fewer than 5 pending bits. -/
def convertBits8to5Aux : List Nat → Nat → Nat → List Nat
  | [], acc, bits => if bits = 0 then [] else [Nat.land (acc <<< (5 - bits)) 31]
  | b :: rest, acc, bits =>
    let acc2 := acc * 256 + b % 256
    let bits2 := bits + 8
    if bits2 ≥ 10 then
      (acc2 >>> (bits2 - 5)) % 32 :: (acc2 >>> (bits2 - 10)) % 32
        :: convertBits8to5Aux rest (acc2 % 2 ^ (bits2 - 10)) (bits2 - 10)
    else
      (acc2 >>> (bits2 - 5)) % 32 :: convertBits8to5Aux rest (acc2 % 2 ^ (bits2 - 5)) (bits2 - 5)

def convertBits8to5 (bs : List Nat) : List Nat := convertBits8to5Aux bs 0 0

def bech32CharsLower : List Char := "qpzry9x8gf2tvdw0s3jn54khce6mua7l".toList

def bech32CharsUpper : List Char := "QPZRY9X8GF2TVDW0S3JN54KHCE6MUA7L".toList

/-- `bech32::encode::<Bech32>` over a byte payload (lower-case). -/
def bech32_encode (hrp : String) (payload : List Nat) : String :=
  let d5 := convertBits8to5 payload
  let chk := bech32CreateChecksum (strBytes hrp) d5
  hrp ++ "1" ++ ((d5 ++ chk).map fun v => bech32CharsLower.getD v '?').asString

/-- `bech32::encode_upper::<Bech32>` over a byte payload. -/
def bech32_encode_upper (hrp : String) (payload : List Nat) : String :=
  let d5 := convertBits8to5 payload
  let chk := bech32CreateChecksum (strBytes hrp) d5
  hrp ++ "1" ++ ((d5 ++ chk).map fun v => bech32CharsUpper.getD v '?').asString

/-- `ed25519_private_key_to_curve25519` (src/ssh.rs lines 65-72):
SHA-512 of the seed, first 32 bytes copied out unmodified. -/
def ed25519_private_key_to_curve25519 (sk : List Nat) : List Nat :=
  (sha512 sk).take 32

/-- `ssh_private_key_to_age` (src/ssh.rs lines 55-63):
`Ed25519SecretKey::try_from` insists on exactly 32 bytes, then the
hashed scalar is bech32-encoded upper-case under `AGE-SECRET-KEY-`. -/
def ssh_private_key_to_age (key : List Nat) : Except String String :=
  if key.length = 32 then
    .ok (bech32_encode_upper "AGE-SECRET-KEY-" (ed25519_private_key_to_curve25519 key))
  else .error "InvalidKey"

/-- The age secret string as the spec describes it (for the refinement
comparison): the bech32 upper-case encoding under HRP `AGE-SECRET-KEY-`
of the first 32 bytes of SHA-512 of the seed. -/
def age_secret_spec (seed : List Nat) : String :=
  bech32_encode_upper "AGE-SECRET-KEY-" ((sha512 seed).take 32)

/-- RFC 7748 scalar clamping (which the code does NOT apply): clear the
low 3 bits of byte 0, clear the top bit and set bit 6 of byte 31. -/
def clampScalar (bs : List Nat) : List Nat :=
  bs.mapIdx fun i b =>
    if i = 0 then Nat.land b 248
    else if i = 31 then Nat.lor (Nat.land b 127) 64
    else b

/-! ### Curve25519 field arithmetic for the recipient side -/

def p25519 : Nat := 2 ^ 255 - 19

/-- Modular exponentiation by squaring; structural recursion on a fuel
argument (the exponent halves each step, so any fuel above log2 of the
exponent suffices; callers pass the exponent itself). -/
def powModFuel : Nat → Nat → Nat → Nat → Nat
  | 0, _, _, m => 1 % m
  | fuel + 1, b, e, m =>
    if e = 0 then 1 % m
    else
      let h := powModFuel fuel (b * b % m) (e / 2) m
      if e % 2 = 1 then h * b % m else h

/-- Modular exponentiation for the 255-bit field exponents used below
(all < 2^256, so 256 squarings always reach exponent zero). -/
def powMod (b e m : Nat) : Nat := powModFuel 256 b e m

def fInv (x : Nat) : Nat := powMod x (p25519 - 2) p25519

/-- The Edwards curve constant d = -121665/121666. -/
def ed25519_d : Nat := (p25519 - 121665) * fInv 121666 % p25519

/-- sqrt(-1) in the field, used to fix up the candidate square root. -/
def sqrtM1 : Nat := powMod 2 ((p25519 - 1) / 4) p25519

/-- `CompressedEdwardsY::decompress` (curve25519-dalek; RFC 8032
§5.1.3 arithmetic): recover x from y and the sign bit; `none` when the
x² candidate is not a square (or the slice is not 32 bytes, which
`from_slice` already rejects). -/
def edwardsDecompress (bytes : List Nat) : Option (Nat × Nat) :=
  if bytes.length ≠ 32 then none
  else
    let yFull := leBytesToNat bytes
    let sign := yFull / 2 ^ 255
    let y := yFull % 2 ^ 255 % p25519
    let u := (y * y + p25519 - 1) % p25519
    let v := (ed25519_d * (y * y % p25519) + 1) % p25519
    let w := u * fInv v % p25519
    let x0 := powMod w ((p25519 + 3) / 8) p25519
    let x1 := if x0 * x0 % p25519 = w then x0 else x0 * sqrtM1 % p25519
    if x1 * x1 % p25519 ≠ w then none
    else
      let x2 := if x1 % 2 ≠ sign then (p25519 - x1) % p25519 else x1
      some (x2, y)

/-- `ssh_public_key_to_age` composed with `encode_public_key` and
`ed25519_public_key_to_curve25519` (src/ssh.rs lines 50-53, 74-90):
decompress, reject the identity point, convert to Montgomery
u = (1+y)/(1-y), bech32-encode lower-case under HRP `age`. -/
def ssh_public_key_to_age (key : List Nat) : Except String String :=
  match edwardsDecompress key with
  | none => .error "Failed to decompress edwards point"
  | some (x, y) =>
    if x = 0 ∧ y = 1 then .error "Edwards point is identity"
    else
      let u := (1 + y) * fInv ((p25519 + 1 - y) % p25519) % p25519
      .ok (bech32_encode "age" (natToLEBytes u 32))

/-- A concrete identity file whose `get_public_keys` knows the two
recipients of `sops_two_stanzas`. -/
def keys_both : Except String (List String) := .ok ["age1r1", "age1r2"]

/-- A concrete KEK unwrapper that fails on the stanza "enc1" but
successfully unwraps "enc2" to a 32-byte key. -/
def kek_second_only : String → Except String (List Nat) :=
  fun e => if e = "enc2" then .ok (List.replicate 32 0) else .error "stanza unwrap failed"

/-- A SOPS metadata block with two age stanzas, both of whose recipients
are known to `keys_both`. -/
def sops_two_stanzas : SopsData :=
  { age := [{ recipient := "age1r1", enc := "enc1" }, { recipient := "age1r2", enc := "enc2" }]
    lastmodified := "2024-01-01T00:00:00Z"
    mac := ""
    unencrypted_suffix := "_unencrypted"
    version := "3.8.1" }

end Secnix

namespace Secnix

/-- C1.  The claim says: after `clean_old_generations(k)` completes
successfully, the persisted `metadata.json.generations` map has exactly
`min(prior_count, max(k, 1))` entries and still contains the active
generation; with 3 generations, active in the middle, `k = 0`, the
persisted map has exactly one entry.  The code diverges: on that very
input it removes the directories of the two non-active generations,
then — the in-memory map being empty while `removed_count (2) <
to_remove (3)` — takes the early return of src/fs.rs lines 302-305,
which skips both re-inserting the set-aside active entry and rewriting
`metadata.json`, so nothing is persisted (the on-disk map keeps its
three stale entries instead of exactly one). -/
theorem c1_clean_old_generations_zero_skips_persist :
    clean_old_generations
      { generations := [(1, "g1"), (2, "g2"), (3, "g3")], active_generation := some "g2" } 0
      = { removed_dirs := ["g1", "g3"], persisted := none } := by
  decide

/-- C2.  The claim says: when `to_keep` exceeds the number of entries,
the subtraction `len - to_keep` is treated as zero and the call
succeeds without removing anything.  The code diverges: line 298
subtracts on usize without saturation, so with 2 generations (active
"g2") and `to_keep = 3` the wrapped `to_remove` is `2^64 - 1`; the loop
then removes the non-active generation directory "g1" and exits through
the early return without persisting metadata (debug builds instead
abort on the overflow). -/
theorem c2_clean_old_generations_underflow :
    clean_old_generations
      { generations := [(1, "g1"), (2, "g2")], active_generation := some "g2" } 3
      = { removed_dirs := ["g1"], persisted := none } := by
  decide

/-- C5.  The claim says: publishing a `copy = true` template byte-copies
the file the render step wrote to `rendered/<template.name>`, for every
choice of template name and source path.  The code diverges: the copy
branch computes its source as `rendered/` joined with the final
component of `template.source` (src/fs.rs lines 242-243), not with
`template.name`; for a template named "app.conf" rendered from
"templates/cfg.tpl" it reads `rendered/cfg.tpl`, a path the render step
(which wrote `rendered/app.conf`) never created, so the copy fails and
the destination does not receive the rendered bytes. -/
theorem c5_copy_template_reads_source_basename :
    copy_template_source_path
        { name := "app.conf", source := "templates/cfg.tpl",
          destination := "/etc/app.conf", copy := some true,
          mode := none, owner := none, group := none }
      = .ok "rendered/cfg.tpl"
    ∧ render_template_write_path
        { name := "app.conf", source := "templates/cfg.tpl",
          destination := "/etc/app.conf", copy := some true,
          mode := none, owner := none, group := none }
      = "rendered/app.conf"
    ∧ ("rendered/cfg.tpl" : String) ≠ "rendered/app.conf" := by
  refine ⟨rfl, rfl, ?_⟩
  decide

/-- C6 counterexample.  The claim states that any failure while applying
final permissions or ownership — including setting the mode — is a
warning that does not abort the install.  False at a concrete input:
with every file-system call succeeding, a configured mode of 800 (whose
decimal digits are not valid octal) makes `u32::from_str_radix(_, 8)`
fail, and the `?` on src/fs.rs line 123 turns that into an error that
aborts `activate_new_generation` instead of a warning. -/
theorem c6_mode_parse_failure_aborts :
    apply_secret_permissions benignPermEffects (some 800) none none
      = .error "invalid digit found in string" := by
  rfl

/-- C6 amended: failures while resolving or setting the owner and group
after the secret's content is written are warnings that do not abort the
install — whenever the configured mode parses as octal and
`set_permissions` itself succeeds, the permission block returns
successfully with that mode applied, regardless of how the user/group
lookups and the `chown` calls behave (their failures only append
warnings).  Mode-parse and `set_permissions` failures, by contrast,
abort (see the counterexample). -/
theorem c6_chown_failures_only_warn (eff : PermEffects) (mode : Option Nat)
    (owner group : Option String) (m : Nat)
    (hparse : u32_from_str_radix8 (toString (mode.getD 400)) = some m)
    (hset : eff.set_permissions m = .ok ()) :
    ∃ r, apply_secret_permissions eff mode owner group = .ok r ∧ r.mode_set = m := by
  simp only [apply_secret_permissions, hparse, hset]
  exact ⟨_, rfl, rfl⟩

/-- C6 witness: a secret with owner "alice" whose uid resolves but whose
`chown` fails with EPERM still installs successfully with mode 0o400. -/
theorem c6_chown_failures_only_warn_witness :
    ∃ r, apply_secret_permissions chownFailPermEffects none (some "alice") none = .ok r
      ∧ r.mode_set = 256 := by
  exact c6_chown_failures_only_warn chownFailPermEffects none (some "alice") none 256 rfl rfl

/-- C7 counterexample.  The claim states that rendered templates get the
same permission and ownership rules as secrets: a configured mode is
parsed as octal digits and honoured, and owner/group names are resolved
and applied.  False at a concrete input: for a template with
`mode = "600"` and `owner = "alice"`, the render loop sets the final
mode to the constant 0o400 = 256 (src/fs.rs line 193) — not the
configured 0o600 = 384 that the secret rule would parse — and attempts
no ownership change at all. -/
theorem c7_template_mode_ignored :
    (render_template_file_ops
        { name := "app.conf", source := "cfg.tpl", destination := "/etc/app.conf",
          copy := none, mode := some "600", owner := some "alice", group := none }).final_mode
      = 256
    ∧ u32_from_str_radix8 "600" = some 384
    ∧ (render_template_file_ops
        { name := "app.conf", source := "cfg.tpl", destination := "/etc/app.conf",
          copy := none, mode := some "600", owner := some "alice", group := none }).final_mode
      ≠ 384
    ∧ (render_template_file_ops
        { name := "app.conf", source := "cfg.tpl", destination := "/etc/app.conf",
          copy := none, mode := some "600", owner := some "alice", group := none }).chown_attempted
      = false := by
  refine ⟨rfl, rfl, ?_, rfl⟩
  decide

/-- C7 amended: after writing a rendered template with open mode 0o600,
the installer unconditionally sets its permissions to 0o400 and never
applies ownership; the template's `mode`, `owner` and `group` fields are
ignored — two templates with the same name but arbitrarily different
mode/owner/group fields produce identical file operations. -/
theorem c7_template_perms_constant (t t2 : Template) (hname : t.name = t2.name) :
    render_template_file_ops t = render_template_file_ops t2
    ∧ (render_template_file_ops t).final_mode = 256
    ∧ (render_template_file_ops t).initial_mode = 384
    ∧ (render_template_file_ops t).chown_attempted = false := by
  refine ⟨?_, rfl, rfl, rfl⟩
  simp [render_template_file_ops, hname]

/-- C3 counterexample.  The claim states that for every file that is a
syntactically valid YAML-flavoured SOPS document the returned handle is
the YAML-flavoured one and the JSON-flavoured parse is not attempted
first.  False: src/sops.rs lines 120-131 call `serde_json::from_str`
first and return the JSON-flavoured handle whenever it succeeds.  On a
document that both parsers accept (YAML syntax being a superset of JSON
syntax, every JSON-syntax SOPS file is such a document), the result is
the JSON-flavoured handle and the trace of attempted parses is exactly
[json]. -/
theorem c3_counterexample_json_tried_first :
    parse_yaml_both "doc-both" = some 0
    ∧ load_sops_file parse_json_both parse_yaml_both "doc-both"
      = (.ok (.inl 0), [.json])
    ∧ (Sum.inl 0 : Nat ⊕ Nat) ≠ .inr 0 := by
  refine ⟨rfl, rfl, by simp⟩

/-- C3 amended: `load_sops_file` attempts the JSON-flavoured parse
first; a successful JSON parse is returned immediately as the
JSON-flavoured document (YAML is never tried), the YAML-flavoured parse
is attempted only after a JSON failure and is then returned when it
succeeds, and `ParseError` results when both fail. -/
theorem c3_load_sops_file_json_first {J Y : Type} (parse_json : String → Option J)
    (parse_yaml : String → Option Y) (s : String) :
    (∀ j, parse_json s = some j →
      load_sops_file parse_json parse_yaml s = (.ok (.inl j), [.json]))
    ∧ (parse_json s = none → ∀ y, parse_yaml s = some y →
      load_sops_file parse_json parse_yaml s = (.ok (.inr y), [.json, .yaml]))
    ∧ (parse_json s = none → parse_yaml s = none →
      load_sops_file parse_json parse_yaml s = (.error (), [.json, .yaml])) := by
  refine ⟨fun j hj => ?_, fun hn y hy => ?_, fun hn hy => ?_⟩ <;>
    simp [load_sops_file, *]

/-- C3 witness: a document only the YAML parser accepts comes back as
the YAML-flavoured document, after a failed JSON attempt. -/
theorem c3_load_sops_file_json_first_witness :
    load_sops_file parse_json_yamlonly parse_yaml_yamlonly "doc-yaml"
      = (.ok (.inr 1), [.json, .yaml]) :=
  (c3_load_sops_file_json_first parse_json_yamlonly parse_yaml_yamlonly "doc-yaml").2.1
    rfl 1 (by decide)

/-- C4.  The claim says: for every envelope with type tag `bytes` whose
AES-256-GCM tag verifies, decrypt returns the raw plaintext bytes
verbatim as `DecryptedValue::Bytes`, for every plaintext byte sequence
including invalid UTF-8.  The code diverges: src/enc/age.rs line 81
forces the plaintext through `String::from_utf8` before dispatching on
the type tag, so a `bytes` envelope whose plaintext is the single
non-UTF-8 byte 0xFF fails with a conversion error instead of returning
`Bytes([0xFF])` (the cipher is instantiated here as the verifying AEAD
that returns that plaintext). -/
theorem c4_bytes_plaintext_must_be_utf8 :
    age_decrypt (fun _ _ _ _ => some [255]) (fun _ => none)
        "ENC[AES256_GCM,data:,iv:,tag:,type:bytes]" (List.replicate 32 0) ["a"]
      = .error "invalid utf-8 sequence"
    ∧ age_decrypt (fun _ _ _ _ => some [255]) (fun _ => none)
        "ENC[AES256_GCM,data:,iv:,tag:,type:bytes]" (List.replicate 32 0) ["a"]
      ≠ .ok (.bytes [255]) := by
  refine ⟨by rfl, ?_⟩
  intro h
  rw [show age_decrypt (fun _ _ _ _ => some [255]) (fun _ => none)
      "ENC[AES256_GCM,data:,iv:,tag:,type:bytes]" (List.replicate 32 0) ["a"]
    = .error "invalid utf-8 sequence" from rfl] at h
  exact absurd h (by simp)

/-- C7 witness: a template configured with mode 600 and owner alice and
one with no configuration at all receive identical file operations. -/
theorem c7_template_perms_constant_witness :
    render_template_file_ops
        { name := "a.conf", source := "s1", destination := "/d1",
          copy := none, mode := some "600", owner := some "alice", group := none }
      = render_template_file_ops
        { name := "a.conf", source := "s2", destination := "/d2",
          copy := some true, mode := none, owner := none, group := none }
    ∧ (render_template_file_ops
        { name := "a.conf", source := "s1", destination := "/d1",
          copy := none, mode := some "600", owner := some "alice", group := none }).final_mode
      = 256 := by
  have h := c7_template_perms_constant
    { name := "a.conf", source := "s1", destination := "/d1",
      copy := none, mode := some "600", owner := some "alice", group := none }
    { name := "a.conf", source := "s2", destination := "/d2",
      copy := some true, mode := none, owner := none, group := none }
    rfl
  exact ⟨h.1, h.2.1⟩

/-- C8: the orchestrator's recipient selection.  With the identity
file's public keys loaded successfully, the candidates are the SOPS
`age` stanzas filtered — order preserved, expressed by the sublist
relation — to those whose recipient the identity file knows; no
candidate fails with `NoRecipients`; and when there is a first
candidate, a failing KEK unwrap on it makes the whole decryption fail
with that error, with no fallback to the remaining candidates. -/
theorem c8_first_candidate_no_fallback
    (get_public_keys : Except String (List String))
    (decrypt_kek : String → Except String (List Nat))
    (aead_open : List Nat → List Nat → List Nat → List Nat → Option (List Nat))
    (parse_f64 : List Nat → Option Nat)
    (path : List String) (data : String) (sops : SopsData)
    (ids : List String) (hids : get_public_keys = .ok ids) :
    ((sops.age.filter fun a => ids.contains a.recipient).Sublist sops.age)
    ∧ ((sops.age.filter fun a => ids.contains a.recipient) = [] →
      sops_decrypt get_public_keys decrypt_kek aead_open parse_f64 path data sops
        = .error .noRecipients)
    ∧ (∀ c cs e, (sops.age.filter fun a => ids.contains a.recipient) = c :: cs →
      decrypt_kek c.enc = .error e →
      sops_decrypt get_public_keys decrypt_kek aead_open parse_f64 path data sops
        = .error (.kekDecryption e)) := by
  refine ⟨List.filter_sublist _, fun hempty => ?_, fun c cs e hc he => ?_⟩
  · simp only [sops_decrypt, hids, hempty]
  · simp only [sops_decrypt, hids, hc, he]

/-- C8 witness: two stanzas, both of whose recipients the identity file
knows; the KEK unwrap fails on the first stanza although it would have
succeeded on the second, and the decryption fails with the first
stanza's error — no fallback. -/
theorem c8_first_candidate_no_fallback_witness :
    sops_decrypt keys_both kek_second_only (fun _ _ _ _ => none) (fun _ => none)
        ["a"] "ENC[...]" sops_two_stanzas
      = .error (.kekDecryption "stanza unwrap failed")
    ∧ kek_second_only "enc2" = .ok (List.replicate 32 0) := by
  refine ⟨?_, by rfl⟩
  exact (c8_first_candidate_no_fallback keys_both kek_second_only
      (fun _ _ _ _ => none) (fun _ => none) ["a"] "ENC[...]" sops_two_stanzas
      ["age1r1", "age1r2"] rfl).2.2
    { recipient := "age1r1", enc := "enc1" } [{ recipient := "age1r2", enc := "enc2" }]
    "stanza unwrap failed" (by decide) (by rfl)

/-- C9: key derivation.  For every 32-byte Ed25519 seed the code's
secret string equals the spec formula — the bech32 upper-case encoding
under HRP `AGE-SECRET-KEY-` of the first 32 bytes of SHA-512 of the
seed (`age_secret_spec` is the spec-side definition); the derivation of
both the recipient and the secret string is a pure function of the
input (no randomness anywhere on the path), so equal inputs give
bit-for-bit equal outputs; and no RFC 7748 clamping is applied to the
scalar: on the all-zero seed the scalar the code emits differs from its
clamped form (byte 31 of the SHA-512 prefix is 0x96, which clamping
would rewrite to 0x56), so the emitted bytes are the raw hash prefix. -/
theorem c9_age_secret_formula_deterministic_unclamped :
    (∀ key : List Nat, key.length = 32 →
      ssh_private_key_to_age key = .ok (age_secret_spec key))
    ∧ (∀ k1 k2 : List Nat, k1 = k2 →
      ssh_private_key_to_age k1 = ssh_private_key_to_age k2
      ∧ ssh_public_key_to_age k1 = ssh_public_key_to_age k2)
    ∧ ed25519_private_key_to_curve25519 (List.replicate 32 0)
      ≠ clampScalar (ed25519_private_key_to_curve25519 (List.replicate 32 0)) := by
  refine ⟨fun key hk => ?_, fun k1 k2 h => by rw [h]; exact ⟨rfl, rfl⟩, by decide⟩
  simp [ssh_private_key_to_age, hk, age_secret_spec, ed25519_private_key_to_curve25519]

/-- C9 witness: the all-zero seed satisfies the length hypothesis, and
its secret string — kernel-evaluated through the SHA-512 and bech32
embeddings — is the exact string an independent reference
implementation produces for this seed. -/
theorem c9_age_secret_formula_deterministic_unclamped_witness :
    (List.replicate 32 0 : List Nat).length = 32
    ∧ ssh_private_key_to_age (List.replicate 32 0) = .ok (age_secret_spec (List.replicate 32 0))
    ∧ age_secret_spec (List.replicate 32 0)
      = "AGE-SECRET-KEY-12PR2MSWM4QUGV7ETH07APS6Z8EVT27TSK5N84Y8409SFYJ587XTQFFU0SC" := by
  refine ⟨by decide,
    c9_age_secret_formula_deterministic_unclamped.1 (List.replicate 32 0) (by decide), by decide⟩

/-- C10: both `get_key` implementations read `key[0]` by direct index
with no bounds check (src/sops.rs lines 76 and 97), modelled as
`Except.error ()` on the empty path; under the precondition that the
key path is non-empty the access is in bounds and `get_key` always
returns normally with either the leaf string or `None`; and the public
interface cannot produce an empty path, because `str::split('.')`
always yields at least one piece (src/fs.rs line 84, src/cli.rs
line 95). -/
theorem c10_get_key_total_on_nonempty_path :
    (∀ (other : List (String × YValue)) (key : List String), key ≠ [] →
      ∃ r, yaml_get_key other key = .ok r)
    ∧ (∀ (other : List (String × JValue)) (key : List String), key ≠ [] →
      ∃ r, json_get_key other key = .ok r)
    ∧ (∀ other : List (String × YValue), yaml_get_key other [] = .error ())
    ∧ (∀ other : List (String × JValue), json_get_key other [] = .error ())
    ∧ (∀ (c : Char) (s : List Char), rust_split_char c s ≠ []) := by
  refine ⟨fun other key hk => ?_, fun other key hk => ?_, fun _ => rfl, fun _ => rfl,
    fun c s => ?_⟩
  · match key with
    | [] => exact absurd rfl hk
    | k0 :: rest => exact ⟨_, rfl⟩
  · match key with
    | [] => exact absurd rfl hk
    | k0 :: rest => exact ⟨_, rfl⟩
  · induction s with
    | nil => simp [rust_split_char]
    | cons x xs ih =>
      by_cases h : x = c
      · simp [rust_split_char, h]
      · simp only [rust_split_char, if_neg h]
        cases hr : rust_split_char c xs with
        | nil => exact absurd hr ih
        | cons r rs => simp

/-- C10 witness: a two-component path into a nested mapping returns
normally (here with the leaf string). -/
theorem c10_get_key_total_on_nonempty_path_witness :
    ∃ r, yaml_get_key [("db", .vmap [("password", .vstr "hunter2")])] ["db", "password"]
      = .ok r :=
  c10_get_key_total_on_nonempty_path.1
    [("db", .vmap [("password", .vstr "hunter2")])] ["db", "password"] (by simp)

end Secnix
